import Mathlib

/-!
Shallow embedding of the SJPROMOS product-selection core: the scoring /
anti-repetition engine of `src/product_ai.py` and the hourly planning /
dispatch logic of `src/scheduler.py`.

Conventions of the embedding:
* Python floats are modelled as rationals (`ℚ`); all arithmetic appearing in
  the program is exact on the values the claims mention.
* Timestamps are rationals measured in hours, so the SQL windows
  `-1 hour`, `-24 hours`, `-7 days` and `-30 days` become
  `now - 1`, `now - 24`, `now - 168` and `now - 720`, and
  `(datetime.now() - posted_at).total_seconds() / 3600` becomes `now - posted_at`.
* The SQLite database is an explicit `Store` value threaded through each
  operation in program order; each SQL statement is a pure transformation of it.
  Where the source holds two connections at once (`record_click` awaiting
  `_update_trending_score`), connection isolation is modelled explicitly: the
  second connection reads only the last committed snapshot, and a write lock
  held by the first connection makes the write of the second connection fail.
* A Python `dict` field read via `product.get(key, default)` is modelled as an
  `Option` field with the same default supplied at the use site.
* A raised-and-caught exception inside `score_product` is modelled by the
  explicit `exc` flag selecting the `except` branch of the source.
-/

namespace SJPromos

/-- A marketplace candidate: the product `dict` fields that the core reads.
`none` models a missing dictionary key. -/
structure Product where
  product_id : Option String := none
  calculated_discount : Option ℚ := none
  rating : Option ℚ := none
  review_count : Option ℤ := none
  volume : Option ℤ := none
  commission_rate : Option ℚ := none
  product_title : Option String := none
deriving DecidableEq

/-- A row of the `posted_products` table (`src/product_ai.py`, `init_db`).
Columns omitted from an `INSERT` take the SQL defaults recorded here:
`clicks INTEGER DEFAULT 0`, `conversion_score REAL DEFAULT 0.0`,
`engagement_score REAL DEFAULT 0.0`, `last_click_at` NULL. -/
structure PostedRow where
  posted_at : ℚ
  clicks : ℤ := 0
  conversion_score : ℚ := 0
  engagement_score : ℚ := 0
  last_click_at : Option ℚ := none
  category : Option String := none
  discount : Option ℚ := none
  rating : Option ℚ := none
  volume : Option ℤ := none
deriving DecidableEq

/-- A row of the `product_history` table (append-only action log). -/
structure HistoryRow where
  product_id : String
  action : String
  timestamp : ℚ
  score_impact : ℚ := 0
deriving DecidableEq

/-- A row of the `trending_products` table. `first_seen` is nullable: the
`INSERT OR REPLACE` in `_update_trending_score` does not list it. -/
structure TrendingRow where
  trend_score : ℚ := 0
  first_seen : Option ℚ := none
  last_seen : Option ℚ := none
  click_velocity : ℚ := 0
deriving DecidableEq

/-- The SQLite database state: the three tables the claims touch.
Keyed tables are association lists keyed by `product_id` (the PRIMARY KEY). -/
structure Store where
  posted_products : List (String × PostedRow) := []
  product_history : List HistoryRow := []
  trending_products : List (String × TrendingRow) := []
deriving DecidableEq

/-- Model of `SELECT ... FROM posted_products WHERE product_id = ?` (first matching row). -/
def lookupPosted (s : Store) (pid : String) : Option PostedRow :=
  (s.posted_products.find? (fun e => e.1 == pid)).map (fun e => e.2)

/-- Model of `SELECT ... FROM trending_products WHERE product_id = ?` (first matching row). -/
def lookupTrending (s : Store) (pid : String) : Option TrendingRow :=
  (s.trending_products.find? (fun e => e.1 == pid)).map (fun e => e.2)

/-- SQLite `INSERT OR REPLACE` into a table whose PRIMARY KEY is the product id:
rows conflicting on the key are deleted and the fresh row is inserted. -/
def insertOrReplace {β : Type} (l : List (String × β)) (pid : String) (row : β) :
    List (String × β) :=
  (l.filter (fun e => !(e.1 == pid))) ++ [(pid, row)]

/-- Model of `_calculate_discount_score` (src/product_ai.py:130-145). -/
def calculate_discount_score (product : Product) : ℚ :=
  let discount := product.calculated_discount.getD 0
  if discount ≥ 70 then 100
  else if discount ≥ 50 then 80
  else if discount ≥ 30 then 60
  else if discount ≥ 20 then 40
  else if discount ≥ 10 then 20
  else 0

/-- Model of `_calculate_rating_score` (src/product_ai.py:147-178). -/
def calculate_rating_score (product : Product) : ℚ :=
  let rating := product.rating.getD 0
  let review_count := product.review_count.getD 0
  let base_score : ℚ :=
    if rating ≥ 4.8 then 100
    else if rating ≥ 4.5 then 80
    else if rating ≥ 4.0 then 60
    else if rating ≥ 3.5 then 40
    else if rating ≥ 3.0 then 20
    else 0
  let boost : ℚ :=
    if review_count ≥ 1000 then 20
    else if review_count ≥ 500 then 15
    else if review_count ≥ 100 then 10
    else if review_count ≥ 50 then 5
    else 0
  min (base_score + boost) 100

/-- Model of `_calculate_volume_score` (src/product_ai.py:180-195). -/
def calculate_volume_score (product : Product) : ℚ :=
  let volume := product.volume.getD 0
  if volume ≥ 10000 then 100
  else if volume ≥ 5000 then 80
  else if volume ≥ 1000 then 60
  else if volume ≥ 500 then 40
  else if volume ≥ 100 then 20
  else 0

/-- Model of `_calculate_commission_score` (src/product_ai.py:197-212). -/
def calculate_commission_score (product : Product) : ℚ :=
  let commission := product.commission_rate.getD 0
  if commission ≥ 10 then 100
  else if commission ≥ 8 then 80
  else if commission ≥ 6 then 60
  else if commission ≥ 4 then 40
  else if commission ≥ 2 then 20
  else 0

/-- Count of `click` history events for `pid` strictly newer than `cutoff`
(the SQL `COUNT(*) ... WHERE product_id = ? AND action = "click" AND timestamp > cutoff`). -/
def countClicksSince (s : Store) (pid : String) (cutoff : ℚ) : ℕ :=
  (s.product_history.filter
    (fun h => h.product_id == pid && h.action == "click" && decide (h.timestamp > cutoff))).length

/-- Model of `_calculate_trending_score` (src/product_ai.py:214-250). -/
def calculate_trending_score (s : Store) (now : ℚ) (product : Product) : ℚ :=
  let product_id := product.product_id.getD ""
  match lookupTrending s product_id with
  | some t => min (t.trend_score + t.click_velocity) 100
  | none =>
    let clicks := countClicksSince s product_id (now - 24)
    if clicks > 0 then min ((clicks : ℚ) * 10) 100 else 0

/-- Model of `_get_historical_score` (src/product_ai.py:252-283). -/
def get_historical_score (s : Store) (product_id : String) : ℚ :=
  match lookupPosted s product_id with
  | none => 0
  | some r =>
    let historical_score := (r.conversion_score + r.engagement_score) / 2
    let historical_score :=
      if r.clicks > 100 then historical_score + 20
      else if r.clicks > 50 then historical_score + 10
      else if r.clicks > 10 then historical_score + 5
      else historical_score
    min historical_score 100

/-- Model of `_calculate_freshness_score` (src/product_ai.py:285-318).
`timedelta.days` is the floor of the span in whole days. -/
def calculate_freshness_score (s : Store) (now : ℚ) (product : Product) : ℚ :=
  match lookupPosted s (product.product_id.getD "") with
  | none => 50
  | some r =>
    let days_since_post : ℤ := ⌊(now - r.posted_at) / 24⌋
    if days_since_post = 0 then 0
    else if days_since_post ≤ 1 then 10
    else if days_since_post ≤ 7 then 20
    else if days_since_post ≤ 30 then 30
    else 40

/-- Model of `_apply_premium_boost` (src/product_ai.py:320-336). -/
def apply_premium_boost (product : Product) (base_score : ℚ) : ℚ :=
  let rating := product.rating.getD 0
  let volume := product.volume.getD 0
  let discount := product.calculated_discount.getD 0
  let boost : ℚ :=
    if rating ≥ 4.5 ∧ volume ≥ 1000 ∧ discount ≥ 30 then 15
    else if rating ≥ 4.0 ∧ volume ≥ 500 ∧ discount ≥ 20 then 10
    else if rating ≥ 3.5 ∧ volume ≥ 100 then 5
    else 0
  min (base_score + boost) 100

/-- The `try` body of `score_product` (src/product_ai.py:89-124): seven weighted
sub-scores (`self.weights`), premium boost, clamp to `[0, 100]`. -/
def score_product_core (s : Store) (now : ℚ) (product : Product) : ℚ :=
  let final_score :=
    calculate_discount_score product * 0.25
    + calculate_rating_score product * 0.20
    + calculate_volume_score product * 0.15
    + calculate_commission_score product * 0.15
    + calculate_trending_score s now product * 0.10
    + get_historical_score s (product.product_id.getD "") * 0.10
    + calculate_freshness_score s now product * 0.05
  let final_score := apply_premium_boost product final_score
  min (max final_score 0) 100

/-- Model of `score_product` (src/product_ai.py:87-128). `exc = true` selects the
`except` branch: any internal computation raising yields `0.0`. -/
def score_product (s : Store) (now : ℚ) (product : Product) (exc : Bool) : ℚ :=
  if exc then 0 else score_product_core s now product

/-- The empty database (all tables empty). -/
def emptyStore : Store := {}

/-- The worked-example candidate: discount 55%, rating 4.6, 700 reviews,
volume 6000, commission 9%. -/
def exampleProduct : Product :=
  { product_id := some "P1"
    calculated_discount := some 55
    rating := some 4.6
    review_count := some 700
    volume := some 6000
    commission_rate := some 9
    product_title := some "example" }

/-- C1: for every candidate and every store state `score_product` lies in
`[0, 100]`, and the `except` branch (any internal computation raising) returns
exactly `0`. -/
theorem score_product_bounded (s : Store) (now : ℚ) (product : Product) (exc : Bool) :
    0 ≤ score_product s now product exc ∧
      score_product s now product exc ≤ 100 ∧
      score_product s now product true = 0 := by
  refine ⟨?_, ?_, rfl⟩
  · unfold score_product
    split
    · exact le_refl 0
    · exact le_min (le_max_right _ _) (by norm_num)
  · unfold score_product
    split
    · norm_num
    · exact min_le_right _ _

/-- C2: on the worked example (discount 55, rating 4.6, 700 reviews, volume
6000, commission 9, never posted, no trend or history data) the sub-scores are
discount 80, rating 95, volume 80, commission 80, trending 0, historical 0,
freshness 50, and the final score is exactly 80.5 (weighted sum 65.5 plus the
+15 premium boost). -/
theorem score_product_worked_example :
    calculate_discount_score exampleProduct = 80 ∧
      calculate_rating_score exampleProduct = 95 ∧
      calculate_volume_score exampleProduct = 80 ∧
      calculate_commission_score exampleProduct = 80 ∧
      calculate_trending_score emptyStore 0 exampleProduct = 0 ∧
      get_historical_score emptyStore "P1" = 0 ∧
      calculate_freshness_score emptyStore 0 exampleProduct = 50 ∧
      score_product emptyStore 0 exampleProduct false = 80.5 := by
  refine ⟨?_, ?_, ?_, ?_, ?_, ?_, ?_, ?_⟩ <;>
    norm_num [calculate_discount_score, calculate_rating_score,
      calculate_volume_score, calculate_commission_score,
      calculate_trending_score, get_historical_score, calculate_freshness_score,
      score_product, score_product_core, apply_premium_boost,
      lookupPosted, lookupTrending, countClicksSince, emptyStore, exampleProduct]

/-- Model of `can_post_product` (src/product_ai.py:338-373): the anti-repetition rule.
`now - r.posted_at` is `hours_since_post`. -/
def can_post_product (s : Store) (now : ℚ) (product_id : String) (force_post : Bool) : Bool :=
  match lookupPosted s product_id with
  | none => true
  | some r =>
    let hours_since_post := now - r.posted_at
    if hours_since_post < 48 then
      if force_post || (decide (r.conversion_score > 80) && decide (r.clicks > 50)) then true
      else false
    else if decide (r.conversion_score < 30) && decide (hours_since_post < 72) then false
    else true

/-- Model of `canPost` as the spec words it (§4.2): true if no PostingRecord exists;
otherwise, under 48 hours deny unless `forcePost` or the high-performer
override (`conversionScore > 80 ∧ clicks > 50`) allows; past that, deny when
`conversionScore < 30 ∧ hours-since-post < 72` (extended cooldown); otherwise
allow. -/
def canPost_spec (s : Store) (now : ℚ) (product_id : String) (force_post : Bool) : Bool :=
  match lookupPosted s product_id with
  | none => true
  | some r =>
    let hours := now - r.posted_at
    if hours < 48 then
      force_post || (decide (r.conversion_score > 80) && decide (r.clicks > 50))
    else !(decide (r.conversion_score < 30) && decide (hours < 72))

/-- The scenario store: a single posting record with `conversion_score = 85`
and `clicks = 60`, posted at time 0. -/
def highPerformerStore : Store :=
  { posted_products := [("HP", { posted_at := 0, clicks := 60, conversion_score := 85 })] }

/-- C3: `can_post_product` implements exactly the `canPost` rule of the spec
(true when no record; under 48h allow only on `forcePost` or the
high-performer override; at or past 48h deny exactly when
`conversionScore < 30` and under 72h), and on the scenario record
(`conversionScore = 85`, `clicks = 60`, posted 10 hours ago) it returns true. -/
theorem can_post_product_correct :
    (∀ (s : Store) (now : ℚ) (product_id : String) (force_post : Bool),
      can_post_product s now product_id force_post =
        canPost_spec s now product_id force_post) ∧
      can_post_product highPerformerStore 10 "HP" false = true := by
  constructor
  · intro s now product_id force_post
    unfold can_post_product canPost_spec
    cases lookupPosted s product_id with
    | none => rfl
    | some r =>
      dsimp only
      by_cases h1 : now - r.posted_at < 48 <;>
        by_cases h2 : r.conversion_score < 30 <;>
          by_cases h3 : now - r.posted_at < 72 <;>
            simp [h1, h2, h3]
  · norm_num [can_post_product, lookupPosted, highPerformerStore, List.find?]

/-- Peak posting hours (src/scheduler.py:50). -/
def peak_hours : List ℤ := [12, 13, 14, 20, 21]

/-- The posting-rate configuration
(`config.POST_MIN_PER_HOUR` / `config.POST_MAX_PER_HOUR`). -/
structure Config where
  POST_MIN_PER_HOUR : ℤ
  POST_MAX_PER_HOUR : ℤ
deriving DecidableEq

/-- Model of `_calculate_hourly_posts` (src/scheduler.py:142-156), with the three
`random.randint` draws passed explicitly: `base` drawn from `[min, max]`,
`boost` from `[2, 5]` (consumed only in peak hours), `variation` from `[-2, 2]`. -/
def calculate_hourly_posts (cfg : Config) (hour : ℤ) (base boost variation : ℤ) : ℤ :=
  let base_posts := base
  let base_posts :=
    if hour ∈ peak_hours then min (base_posts + boost) cfg.POST_MAX_PER_HOUR
    else base_posts
  let final_posts := max (base_posts + variation) cfg.POST_MIN_PER_HOUR
  min final_posts cfg.POST_MAX_PER_HOUR

/-- C5: whenever `minPerHour ≤ maxPerHour`, for every hour and every outcome of
the three random draws, `_calculate_hourly_posts` returns a target inside
`[minPerHour, maxPerHour]`. -/
theorem calculate_hourly_posts_bounded (cfg : Config) (hour base boost variation : ℤ)
    (hminmax : cfg.POST_MIN_PER_HOUR ≤ cfg.POST_MAX_PER_HOUR)
    (hbase₁ : cfg.POST_MIN_PER_HOUR ≤ base) (hbase₂ : base ≤ cfg.POST_MAX_PER_HOUR)
    (hboost₁ : 2 ≤ boost) (hboost₂ : boost ≤ 5)
    (hvar₁ : -2 ≤ variation) (hvar₂ : variation ≤ 2) :
    cfg.POST_MIN_PER_HOUR ≤ calculate_hourly_posts cfg hour base boost variation ∧
      calculate_hourly_posts cfg hour base boost variation ≤ cfg.POST_MAX_PER_HOUR := by
  unfold calculate_hourly_posts
  dsimp only
  split <;> omega

/-- Witness for C5: configuration `[20, 25]`, peak hour 12, draws
`base = 22`, `boost = 3`, `variation = -2` stay inside `[20, 25]`. -/
theorem calculate_hourly_posts_bounded_witness :
    (20 : ℤ) ≤ calculate_hourly_posts ⟨20, 25⟩ 12 22 3 (-2) ∧
      calculate_hourly_posts ⟨20, 25⟩ 12 22 3 (-2) ≤ 25 :=
  calculate_hourly_posts_bounded ⟨20, 25⟩ 12 22 3 (-2) (by decide) (by decide)
    (by decide) (by decide) (by decide) (by decide) (by decide)

/-- The per-hour mutable scheduler state (src/scheduler.py): the Telegram
collaborator active flag, the fired-set `posted_this_hour`, the hourly post
counter, the hourly target, and the log of `telegram_bot.post_product`
invocations (the publish operations actually performed). -/
structure SchedState where
  is_active : Bool := true
  posted_this_hour : List String := []
  current_hour_posts : ℕ := 0
  hourly_target : ℤ := 0
  published : List String := []
deriving DecidableEq

/-- Model of `_execute_post` (src/scheduler.py:235-259): return unchanged when the bot
is paused; return unchanged when the product id is already in
`posted_this_hour`; otherwise publish, append the id to the fired-set and bump
the counter. -/
def execute_post (st : SchedState) (product : Product) : SchedState :=
  if !st.is_active then st
  else
    let product_id := product.product_id.getD ""
    if product_id ∈ st.posted_this_hour then st
    else
      { st with
        published := st.published ++ [product_id]
        posted_this_hour := st.posted_this_hour ++ [product_id]
        current_hour_posts := st.current_hour_posts + 1 }

/-- Model of `force_post_now` (src/scheduler.py:298-303): delegates to `_execute_post`
unchanged, fired-set check included. -/
def force_post_now (st : SchedState) (product : Product) : SchedState :=
  execute_post st product

/-- An active state whose fired-set already contains `"X1"`. -/
def stFired : SchedState := { posted_this_hour := ["X1"] }

/-- A candidate whose id `"X1"` is already in the fired-set of `stFired`. -/
def productX1 : Product := { product_id := some "X1" }

/-- Counterexample to C7: with the system active and `"X1"` already in the
fired-set of the current hour, `force_post_now` leaves the state untouched — the
publish operation is not invoked, because `_execute_post` still performs the
fired-set check. -/
theorem force_post_now_counterexample :
    stFired.is_active = true ∧
      "X1" ∈ stFired.posted_this_hour ∧
      force_post_now stFired productX1 = stFired ∧
      ((force_post_now stFired productX1).published =
        stFired.published ++ ["X1"]) = False :=
  ⟨rfl, by decide, by decide, eq_false (by decide)⟩

/-- C7 as amended: `force_post_now` runs the fire-time handler immediately but
with the fired-set check intact: the publish operation is invoked exactly when
the system is not paused and the candidate id is not yet in the current
fired-set of the hour. -/
theorem force_post_now_runs_handler (st : SchedState) (product : Product) :
    (force_post_now st product).published =
      if st.is_active = true ∧ (product.product_id.getD "") ∉ st.posted_this_hour
      then st.published ++ [product.product_id.getD ""]
      else st.published := by
  unfold force_post_now execute_post
  rcases hact : st.is_active with _ | _ <;>
    by_cases hmem : (product.product_id.getD "") ∈ st.posted_this_hour <;>
      simp [hact, hmem]

/-- Model of `s.startswith(pre)`, computed on the character lists. -/
def charsStartWith : List Char → List Char → Bool
  | _, [] => true
  | [], _ :: _ => false
  | c :: cs, d :: ds => c == d && charsStartWith cs ds

/-- Model of `job.id.startswith("post_")`-style test on strings. -/
def strStartsWith (s pre : String) : Bool :=
  charsStartWith s.data pre.data

/-- An APScheduler job: its id and its next run time. -/
structure Job where
  id : String
  next_run_time : ℚ
deriving DecidableEq

/-- The APScheduler instance: running flag and registered jobs (one-shot post
jobs and the recurring maintenance jobs alike). -/
structure Scheduler where
  running : Bool := true
  jobs : List Job := []
deriving DecidableEq

/-- Model of `emergency_stop` (src/scheduler.py:350-362): remove every job whose id
starts with `"post_"`; all other jobs remain registered. -/
def emergency_stop (sc : Scheduler) : Scheduler :=
  { sc with jobs := sc.jobs.filter (fun j => !(strStartsWith j.id "post_")) }

/-- The record returned by `get_scheduler_status` (src/scheduler.py:305-329). -/
structure SchedulerStatus where
  scheduler_running : Bool
  total_jobs : ℕ
  current_hour_posts : ℕ
  hourly_target : ℤ
  next_job : Option String
deriving DecidableEq

/-- Model of `min(jobs, key=lambda x: x.next_run_time)`: the first job attaining the
minimal next run time, `none` on an empty job list. -/
def minByNextRun : List Job → Option Job
  | [] => none
  | j :: js =>
    some (js.foldl (fun acc x => if x.next_run_time < acc.next_run_time then x else acc) j)

/-- Model of `get_scheduler_status` (src/scheduler.py:305-329): `total_jobs` is the
length of `scheduler.get_jobs()` — every registered job, post jobs and
recurring maintenance jobs alike. -/
def get_scheduler_status (sc : Scheduler) (st : SchedState) : SchedulerStatus :=
  { scheduler_running := sc.running
    total_jobs := sc.jobs.length
    current_hour_posts := st.current_hour_posts
    hourly_target := st.hourly_target
    next_job := (minByNextRun sc.jobs).map (fun j => j.id) }

/-- A scheduler holding the three recurring maintenance jobs (registered by
`start`) plus one pending post job for the current cycle. -/
def schedulerWithPosts : Scheduler :=
  { jobs := [⟨"hourly_planning", 0⟩, ⟨"cleanup_cache", 1⟩, ⟨"daily_backup", 2⟩,
             ⟨"post_X1_12_0", 3⟩] }

/-- Counterexample to C8: after `emergency_stop`, `get_scheduler_status`
reports `total_jobs = 3` (the recurring maintenance jobs), not 0, even though
every pending post job was cancelled. -/
theorem emergency_stop_counterexample :
    ((get_scheduler_status (emergency_stop schedulerWithPosts) {}).total_jobs = 0) = False ∧
      (get_scheduler_status (emergency_stop schedulerWithPosts) {}).total_jobs = 3 :=
  ⟨eq_false (by decide), by decide⟩

/-- C8 as amended: `emergency_stop` cancels every pending post-job timer (no
job with a `"post_"`-prefixed id survives), but the job count reported by
`get_scheduler_status` afterwards equals the number of remaining non-post jobs
(the recurring maintenance jobs), which need not be 0. -/
theorem emergency_stop_cancels_post_jobs (sc : Scheduler) (st : SchedState) :
    ((emergency_stop sc).jobs.filter (fun j => strStartsWith j.id "post_")).length = 0 ∧
      (get_scheduler_status (emergency_stop sc) st).total_jobs =
        (sc.jobs.filter (fun j => !(strStartsWith j.id "post_"))).length := by
  constructor
  · simp [emergency_stop, List.filter_filter]
  · rfl

/-- The `try` body of `_cleanup_cache` (src/scheduler.py:261-283) as the code
executes it. The body opens its context manager with
`async with self.product_ai.db_path as db`, but `db_path` is a `str`
(`ProductAI.__init__` stores the database *path*), not a connection, so the
statement raises `AttributeError` before either `DELETE` runs. The error value
models that raise. -/
def cleanup_cache_body (_s : Store) (_now : ℚ) : Except String Store :=
  Except.error "AttributeError: str object has no attribute aenter"

/-- Model of `_cleanup_cache` (src/scheduler.py:261-283): the surrounding
`try`/`except` logs the raise from the body and returns, leaving the store
untouched. -/
def cleanup_cache (s : Store) (now : ℚ) : Store :=
  match cleanup_cache_body s now with
  | Except.ok s2 => s2
  | Except.error _ => s

/-- The two `DELETE` statements appearing in `_cleanup_cache` (dead code in the
source: the context manager raises first): prune trending rows with
`last_seen` older than 7 days (168 h) and history rows older than 30 days
(720 h). A NULL `last_seen` never compares below the cutoff. -/
def cleanup_deletes (s : Store) (now : ℚ) : Store :=
  { s with
    trending_products := s.trending_products.filter
      (fun e => !(match e.2.last_seen with
                  | some t => decide (t < now - 168)
                  | none => false))
    product_history := s.product_history.filter
      (fun h => !(decide (h.timestamp < now - 720))) }

/-- A store holding one trending row whose `last_seen` (time 0) is far older
than the 7-day horizon at `now = 1000` hours. -/
def staleStore : Store :=
  { trending_products := [("OLD", { trend_score := 10, last_seen := some 0, click_velocity := 1 })]
    product_history := [{ product_id := "OLD", action := "click", timestamp := 0 }] }

/-- C9 failing input: at `now = 1000` h the row `"OLD"` (`last_seen = 0`) is
older than 7 days (`0 < 1000 - 168`), yet `_cleanup_cache` leaves the store
unchanged — its context manager raises on the string `db_path` — while the
`DELETE` statements it contains would have removed the row. -/
theorem cleanup_cache_leaves_stale_rows :
    cleanup_cache staleStore 1000 = staleStore ∧
      lookupTrending (cleanup_cache staleStore 1000) "OLD" =
        some { trend_score := 10, last_seen := some 0, click_velocity := 1 } ∧
      ((0 : ℚ) < 1000 - 168) ∧
      lookupTrending (cleanup_deletes staleStore 1000) "OLD" = none := by
  refine ⟨rfl, rfl, by norm_num, ?_⟩
  norm_num [cleanup_deletes, lookupTrending, staleStore, List.find?, List.filter]

/-- The `UPDATE posted_products SET ... WHERE product_id = ?` statement:
apply `f` to every row keyed `pid`, leave the rest alone. -/
def updateRows (l : List (String × PostedRow)) (pid : String) (f : PostedRow → PostedRow) :
    List (String × PostedRow) :=
  l.map (fun e => if e.1 == pid then (e.1, f e.2) else e)

/-- Model of `_update_trending_score` (src/product_ai.py:436-466), which opens its
own second connection to the database (line 439). Connection isolation is
explicit: `committed` is the last committed snapshot, which is all this second
connection can read, so the `SELECT COUNT(*)` computes the click velocity over
`committed`; `s` is the store the `INSERT OR REPLACE` would rewrite; `locked`
says whether another connection currently holds the SQLite write lock. When
`locked` is true the `INSERT OR REPLACE` cannot acquire the write lock and
raises `database is locked` after the busy timeout; the `except` at
product_ai.py:465-466 logs and swallows it, so the store is returned
unchanged. When unlocked, the trending row is written with
`trend_score = min(velocity*10, 100)` and `last_seen = now` (`first_seen` is
absent from the column list, so the value in the replaced row becomes NULL). -/
def update_trending_score (committed s : Store) (now : ℚ) (product_id : String)
    (locked : Bool) : Store :=
  let click_velocity : ℕ := countClicksSince committed product_id (now - 1)
  let row : TrendingRow :=
    { trend_score := min ((click_velocity : ℚ) * 10) 100
      first_seen := none
      last_seen := some now
      click_velocity := (click_velocity : ℚ) }
  if locked then s
  else { s with trending_products := insertOrReplace s.trending_products product_id row }

/-- Model of `record_click` (src/product_ai.py:410-434). The outer connection
executes the `UPDATE` of the click counter and `last_click_at` and the `INSERT`
of the `click` history event (`score_impact` takes its SQL default 0); these
stay uncommitted inside its implicit write transaction until the
`await db.commit()` at line 431. Before that commit it awaits
`_update_trending_score` (line 429), whose second connection therefore reads
only the committed snapshot `s` — without the new click — and finds the write
lock held by the outer connection (`locked = true`), so its trending write
deterministically fails and is swallowed. The commit at line 431 then makes
the `UPDATE` and the history `INSERT` durable. -/
def record_click (s : Store) (now : ℚ) (product_id : String) : Store :=
  let s1 : Store :=
    { s with
      posted_products := updateRows s.posted_products product_id
        (fun r => { r with clicks := r.clicks + 1, last_click_at := some now })
      product_history := s.product_history ++
        [{ product_id := product_id, action := "click", timestamp := now }] }
  update_trending_score s s1 now product_id true

theorem find?_updateRows (l : List (String × PostedRow)) (pid : String)
    (f : PostedRow → PostedRow) :
    (updateRows l pid f).find? (fun e => e.1 == pid) =
      (l.find? (fun e => e.1 == pid)).map (fun e => (e.1, f e.2)) := by
  induction l with
  | nil => rfl
  | cons e t ih =>
    show List.find? (fun x => x.1 == pid)
        ((if e.1 == pid then (e.1, f e.2) else e) :: updateRows t pid f) = _
    rcases h : (e.1 == pid) with _ | _
    · rw [if_neg (by simp), List.find?_cons_of_neg _ (by simp [h]), ih,
        List.find?_cons_of_neg _ (by simp [h])]
    · rw [if_pos rfl,
        @List.find?_cons_of_pos _ (fun x => x.1 == pid) (e.1, f e.2) (updateRows t pid f) h,
        @List.find?_cons_of_pos _ (fun x => x.1 == pid) e t h]
      rfl

theorem find?_insertOrReplace {β : Type} (l : List (String × β)) (pid : String) (row : β) :
    (insertOrReplace l pid row).find? (fun e => e.1 == pid) = some (pid, row) := by
  unfold insertOrReplace
  rw [List.find?_append]
  have h : (l.filter (fun e => !(e.1 == pid))).find? (fun e => e.1 == pid) = none := by
    rw [List.find?_eq_none]
    intro x hx
    rcases List.mem_filter.mp hx with ⟨-, hx2⟩
    simpa using hx2
  simp [h, List.find?]

theorem lookupPosted_record_click (s : Store) (now : ℚ) (product_id : String) :
    lookupPosted (record_click s now product_id) product_id =
      (lookupPosted s product_id).map
        (fun r => { r with clicks := r.clicks + 1, last_click_at := some now }) := by
  unfold record_click update_trending_score lookupPosted
  dsimp only
  rw [if_pos rfl, find?_updateRows]
  cases s.posted_products.find? (fun e => e.1 == product_id) <;> rfl

/-- A store with one posting record, key `"P"`: 120 accumulated clicks, high
conversion and engagement, a previous click stamp, and no trending row. -/
def postedOnceStore : Store :=
  { posted_products := [("P", { posted_at := -100, clicks := 120, conversion_score := 90,
                                engagement_score := 50, last_click_at := some (-50) })] }

/-- C4 at the failing input: `record_click` does increment the click count by
exactly 1, set `last_click_at` to the call time, and append one `click`
history event (for every store and id), but it never touches the trending
table: the nested second connection of `_update_trending_score` cannot commit
while the outer write transaction is open, its `database is locked` raise is
swallowed, and — concretely on `postedOnceStore` — after the call no
TrendingEntry for `"P"` exists at all, against the claimed recompute of
`clickVelocity` and `trendScore` on every click. -/
theorem record_click_trending_never_updated :
    (∀ (s : Store) (now : ℚ) (product_id : String),
      lookupPosted (record_click s now product_id) product_id =
          (lookupPosted s product_id).map
            (fun r => { r with clicks := r.clicks + 1, last_click_at := some now }) ∧
        (record_click s now product_id).product_history =
          s.product_history ++
            [{ product_id := product_id, action := "click", timestamp := now }] ∧
        (record_click s now product_id).trending_products = s.trending_products) ∧
      lookupPosted (record_click postedOnceStore 0 "P") "P" =
        some { posted_at := -100, clicks := 121, conversion_score := 90,
               engagement_score := 50, last_click_at := some 0 } ∧
      lookupTrending (record_click postedOnceStore 0 "P") "P" = none :=
  ⟨fun s now product_id => ⟨lookupPosted_record_click s now product_id, rfl, rfl⟩,
   rfl, rfl⟩

/-- Model of `word in title` (Python substring test), computed on the character lists. -/
def charsContain (hay nee : List Char) : Bool :=
  match hay with
  | [] => nee.isEmpty
  | _ :: t => charsStartWith hay nee || charsContain t nee

/-- Substring test on strings. -/
def strContains (hay nee : String) : Bool :=
  charsContain hay.data nee.data

/-- Model of `_extract_category` (src/product_ai.py:468-482): keyword classification of
the lowercased title. -/
def extract_category (product : Product) : String :=
  let title := (product.product_title.getD "").toLower
  if ["phone", "celular", "smartphone"].any (fun w => strContains title w) then "electronics"
  else if ["clothes", "roupa", "camiseta"].any (fun w => strContains title w) then "clothing"
  else if ["home", "casa", "decoration"].any (fun w => strContains title w) then "home"
  else if ["beauty", "cosmetic", "makeup"].any (fun w => strContains title w) then "beauty"
  else "general"

/-- Model of `record_post` (src/product_ai.py:375-408): `INSERT OR REPLACE` the posting
record. The column list is `product_id, posted_at, conversion_score, category,
discount, rating, volume`, so on a replace the columns `clicks`,
`engagement_score` and `last_click_at` revert to their SQL defaults 0, 0.0 and
NULL. A `post` history event with `score_impact = score` is appended. -/
def record_post (s : Store) (now : ℚ) (product : Product) (score : ℚ) : Store :=
  let pid := product.product_id.getD ""
  { s with
    posted_products := insertOrReplace s.posted_products pid
      { posted_at := now
        clicks := 0
        conversion_score := score
        engagement_score := 0
        last_click_at := none
        category := some (extract_category product)
        discount := some (product.calculated_discount.getD 0)
        rating := some (product.rating.getD 0)
        volume := some (product.volume.getD 0) }
    product_history := s.product_history ++
      [{ product_id := pid, action := "post", timestamp := now, score_impact := score }] }

/-- C10: when a posting record already exists, `record_post` replaces the whole
row: afterwards `clicks = 0`, `engagement_score = 0` and `last_click_at` is
NULL whatever the prior values were, so within the next 48 hours a
non-forced `can_post_product` is false — the clicks-based high-performer
override is disabled until clicks re-accumulate. -/
theorem record_post_resets_row (s : Store) (now : ℚ) (product : Product) (score : ℚ)
    (r : PostedRow) (hrec : lookupPosted s (product.product_id.getD "") = some r) :
    ((lookupPosted (record_post s now product score) (product.product_id.getD "")).map
        (fun row => (row.clicks, row.engagement_score, row.last_click_at)) =
      some (0, 0, none)) ∧
      ∀ t : ℚ, t - now < 48 →
        can_post_product (record_post s now product score) t
          (product.product_id.getD "") false = false := by
  have hlook : lookupPosted (record_post s now product score) (product.product_id.getD "") =
      some { posted_at := now
             clicks := 0
             conversion_score := score
             engagement_score := 0
             last_click_at := none
             category := some (extract_category product)
             discount := some (product.calculated_discount.getD 0)
             rating := some (product.rating.getD 0)
             volume := some (product.volume.getD 0) } := by
    show ((insertOrReplace _ _ _).find? (fun e => e.1 == product.product_id.getD "")).map
        (fun e => e.2) = _
    rw [find?_insertOrReplace]
    rfl
  constructor
  · rw [hlook]
    rfl
  · intro t ht
    unfold can_post_product
    rw [hlook]
    simp only
    rw [if_pos ht]
    norm_num

/-- A candidate with id `"P"` for the C10 witness. -/
def productP : Product :=
  { product_id := some "P", calculated_discount := some 55, rating := some 4.6,
    volume := some 6000, product_title := some "example" }

/-- Witness for C10: reposting over the record in `postedOnceStore` (120 clicks,
conversion 90) zeroes the row and blocks an immediate non-forced repost. -/
theorem record_post_resets_row_witness :
    ((lookupPosted (record_post postedOnceStore 0 productP 90) "P").map
        (fun row => (row.clicks, row.engagement_score, row.last_click_at)) =
      some (0, 0, none)) ∧
      can_post_product (record_post postedOnceStore 0 productP 90) 0 "P" false = false :=
  ⟨(record_post_resets_row postedOnceStore 0 productP 90
      { posted_at := -100, clicks := 120, conversion_score := 90,
        engagement_score := 50, last_click_at := some (-50) } rfl).1,
   (record_post_resets_row postedOnceStore 0 productP 90
      { posted_at := -100, clicks := 120, conversion_score := 90,
        engagement_score := 50, last_click_at := some (-50) } rfl).2 0 (by simp)⟩

/-- Model of `get_top_products` (src/product_ai.py:484-506): keep the candidates whose
`can_post_product` check passes, score them, sort by score descending
(the stable Python `list.sort` with `reverse=True`), take the first `limit`
and strip the scores. -/
def get_top_products (s : Store) (now : ℚ) (products : List Product) (limit : ℕ) :
    List Product :=
  let valid_products :=
    (products.filter (fun p => can_post_product s now (p.product_id.getD "") false)).map
      (fun p => (p, score_product s now p false))
  let sorted := valid_products.mergeSort (fun a b => decide (b.2 ≤ a.2))
  (sorted.take limit).map (fun e => e.1)

/-- C6: the selection returns at most `limit` candidates, contains only
candidates for which `can_post_product` was true at selection time, and is
ordered by non-increasing score. -/
theorem get_top_products_correct (s : Store) (now : ℚ) (products : List Product) (limit : ℕ) :
    (get_top_products s now products limit).length ≤ limit ∧
      (∀ p ∈ get_top_products s now products limit,
        can_post_product s now (p.product_id.getD "") false = true) ∧
      (get_top_products s now products limit).Pairwise
        (fun p q => score_product s now q false ≤ score_product s now p false) := by
  unfold get_top_products
  set valid_products :=
    (products.filter (fun p => can_post_product s now (p.product_id.getD "") false)).map
      (fun p => (p, score_product s now p false)) with hvalid
  set sorted := valid_products.mergeSort (fun a b => decide (b.2 ≤ a.2)) with hsorted
  have hchar : ∀ e, e ∈ sorted.take limit →
      e.1 ∈ products.filter (fun p => can_post_product s now (p.product_id.getD "") false) ∧
        e.2 = score_product s now e.1 false := by
    intro e he
    have h1 : e ∈ sorted := List.take_subset limit sorted he
    have h2 : e ∈ valid_products := List.mem_mergeSort.mp h1
    rcases List.mem_map.mp h2 with ⟨p, hp, hpe⟩
    subst hpe
    exact ⟨hp, rfl⟩
  refine ⟨?_, ?_, ?_⟩
  · rw [List.length_map]
    exact List.length_take_le _ _
  · intro p hp
    rcases List.mem_map.mp hp with ⟨e, he, hep⟩
    subst hep
    exact (List.mem_filter.mp (hchar e he).1).2
  · have htrans : ∀ a b c : Product × ℚ,
        decide (b.2 ≤ a.2) = true → decide (c.2 ≤ b.2) = true →
          decide (c.2 ≤ a.2) = true := by
      intro a b c hab hbc
      simp only [decide_eq_true_eq] at hab hbc ⊢
      exact le_trans hbc hab
    have htotal : ∀ a b : Product × ℚ,
        (decide (b.2 ≤ a.2) || decide (a.2 ≤ b.2)) = true := by
      intro a b
      simp only [Bool.or_eq_true, decide_eq_true_eq]
      exact le_total b.2 a.2
    have hsort : sorted.Pairwise (fun a b => decide (b.2 ≤ a.2) = true) :=
      List.sorted_mergeSort htrans htotal valid_products
    have htake : (sorted.take limit).Pairwise (fun a b => decide (b.2 ≤ a.2) = true) :=
      List.Pairwise.sublist (List.take_sublist limit sorted) hsort
    rw [List.pairwise_map]
    refine htake.imp_of_mem ?_
    intro a b ha hb hab
    simp only [decide_eq_true_eq] at hab
    rw [(hchar a ha).2, (hchar b hb).2] at hab
    exact hab

/-- A postable candidate with id `"W"` for the C6 witness. -/
def productW : Product := { product_id := some "W", rating := some 4.6 }

/-- Witness for C6: on the empty store with pool `[productW]` and target 1,
the sole selected candidate passed the `can_post_product` check and the
selection respects the bound. -/
theorem get_top_products_correct_witness :
    can_post_product emptyStore 0 "W" false = true ∧
      (get_top_products emptyStore 0 [productW] 1).length ≤ 1 :=
  ⟨(get_top_products_correct emptyStore 0 [productW] 1).2.1 productW
      (by simp [get_top_products, can_post_product, lookupPosted, emptyStore,
        List.mergeSort_singleton, productW]),
   (get_top_products_correct emptyStore 0 [productW] 1).1⟩

end SJPromos
